import Mathlib

/-!
Verification of `src/lib/set-field.c` (set-field action codec and validator).

The file shallowly embeds the C source.  The field registry (`meta-flow`),
the NXM header macros (`nx-match.h`), the wire struct `ofp12_action_set_field`
(openflow headers), the instruction buffer (`ofpbuf` / `ofpact`), the generic
load check (`nxm_reg_load_check`) and `ovs_fatal` are external collaborators
that are not part of the source file; they are modelled from the spec where
noted.  C byte buffers are `List Nat` (each element a byte value), C strings
are `List Char`, machine integers are `Nat` (all arithmetic here stays far
below every relevant width, see comments at the use sites).
-/

/-- Field identifiers (`enum mf_field_id`, meta-flow.h).  The constructors are
the identifiers named in the `switch` of `set_field_mf_allowed` plus the ones
that only appear under `#if 0` there (those fall to `default`); `MFF_REG n`
stands for the register fields covered by `CASE_MFF_REGS`. -/
inductive MffId where
  | MFF_ETH_SRC | MFF_ETH_DST | MFF_ETH_TYPE
  | MFF_VLAN_VID | MFF_VLAN_PCP
  | MFF_IP_DSCP | MFF_IP_ECN | MFF_IP_PROTO
  | MFF_IPV4_SRC | MFF_IPV4_DST
  | MFF_TCP_SRC | MFF_TCP_DST | MFF_UDP_SRC | MFF_UDP_DST
  | MFF_ICMPV4_TYPE | MFF_ICMPV4_CODE
  | MFF_ARP_OP | MFF_ARP_SPA | MFF_ARP_TPA | MFF_ARP_SHA | MFF_ARP_THA
  | MFF_IPV6_SRC | MFF_IPV6_DST | MFF_IPV6_LABEL
  | MFF_ICMPV6_TYPE | MFF_ICMPV6_CODE
  | MFF_ND_TARGET | MFF_ND_SLL | MFF_ND_TLL
  | MFF_MPLS_LABEL | MFF_MPLS_TC
  | MFF_TUN_ID | MFF_MPLS_STACK | MFF_IN_PORT
  | MFF_REG (n : Nat)
  | MFF_VLAN_TCI | MFF_VLAN_TPID | MFF_VLAN_QINQ_VID | MFF_VLAN_QINQ_PCP
  | MFF_IP_TTL | MFF_IP_FRAG | MFF_N_IDS
  | MFF_SCTP_SRC | MFF_SCTP_DST | MFF_PBB_ISID | MFF_IPV6_EXTHDR
deriving DecidableEq, Repr

/-- Field descriptor (`struct mf_field`, meta-flow.h): the attributes of the
registry's descriptor that `set-field.c` consults. -/
structure MfField where
  id : MffId
  writable : Bool
  oxm_header : Nat
  n_bits : Nat
  n_bytes : Nat
  name : List Char
deriving DecidableEq, Repr

/-- Modelled from the spec: the field registry is an external collaborator
(§6); its lookups, value-validity predicate and text parse/format functions
are consulted, never implemented, by this core. -/
structure Registry where
  mf_from_nxm_header : Nat → Option MfField
  mf_parse_oxm_name : List Char → Option MfField
  mf_is_value_valid : MfField → List Nat → Bool
  mf_parse_value : MfField → List Char → Except (List Char) (List Nat)
  mf_format : MfField → List Nat → List Char

/-- Modelled from the spec: `NXM_LENGTH` (nx-match.h, not under src/) extracts
the declared value length embedded in the low byte of the 4-byte field-header
code. -/
def NXM_LENGTH (header : Nat) : Nat := header % 256

/-- Modelled from the spec: `NXM_HASMASK` (nx-match.h, not under src/) tests
the designated mask bit of the 4-byte field-header code (the bit just above
the length byte). -/
def NXM_HASMASK (header : Nat) : Bool := header / 256 % 2 == 1

/-- Modelled from the spec: `ROUND_UP` (util.h, not under src/) rounds `x` up
to the next multiple of `y`. -/
def ROUND_UP (x y : Nat) : Nat := (x + y - 1) / y * y

/-- Modelled from the spec: `sizeof(struct ofp12_action_set_field)` — the
fixed-size record prefix (type, total length, and the 4-byte field-header
code), 8 bytes. -/
def sizeof_oasf : Nat := 8

/-- The wire record `struct ofp12_action_set_field` as `set_field_from_openflow`
reads it: `len` is `ntohs(oasf->len)`, `oxm` is `ntohl` of the 4-byte
field-header code `oasf->field`, and `payload` holds the record's bytes from
offset `sizeof_oasf` on (value bytes followed by alignment padding). -/
structure Ofp12ActionSetField where
  len : Nat
  oxm : Nat
  payload : List Nat
deriving DecidableEq, Repr

/-- The compat tag stored in `ofpact.compat`; only `OFPUTIL_OFPAT12_SET_FIELD`
matters here, `OFPUTIL_ACTION_INVALID` is the zero-initialized value. -/
inductive OfputilCompat where
  | OFPUTIL_ACTION_INVALID
  | OFPUTIL_OFPAT12_SET_FIELD
deriving DecidableEq, Repr

/-- Destination subfield (`struct mf_subfield`): field, bit offset, bit count. -/
structure MfSubfield where
  field : MfField
  ofs : Nat
  n_bits : Nat
deriving DecidableEq, Repr

/-- The in-memory action (`struct ofpact_reg_load`): compat tag, destination
subfield, value bytes. -/
structure OfpactRegLoad where
  compat : OfputilCompat
  dst : MfSubfield
  value : List Nat
deriving DecidableEq, Repr

/-- Modelled from the spec: `ofpact_put_REG_LOAD` (ofp-actions, not under
src/) appends a fresh zero-initialized instruction to the caller's buffer and
hands it out for initialization.  This is that zero-initialized record; every
path through the source overwrites all of its components before the record is
observable. -/
def ofpact_put_REG_LOAD_default : OfpactRegLoad :=
  { compat := .OFPUTIL_ACTION_INVALID
    dst := { field := { id := .MFF_N_IDS, writable := false, oxm_header := 0,
                        n_bits := 0, n_bytes := 0, name := [] }
             ofs := 0, n_bits := 0 }
    value := [] }

/-- `memcpy` of `n` bytes out of a zero-initialized fixed-size buffer holding
`src`: the first `n` bytes, zero-extended past the end of `src`. -/
def memRead (src : List Nat) (n : Nat) : List Nat :=
  match n, src with
  | 0, _ => []
  | n + 1, [] => 0 :: memRead [] n
  | n + 1, b :: bs => b :: memRead bs n

/-- `set_field_mf_allowed` (set-field.c:29): the static allow-list policy. -/
def set_field_mf_allowed (mf : MfField) : Bool :=
  if !mf.writable || mf.oxm_header == 0 then false
  else
    match mf.id with
    | .MFF_ETH_SRC | .MFF_ETH_DST | .MFF_ETH_TYPE
    | .MFF_VLAN_VID | .MFF_VLAN_PCP
    | .MFF_IP_DSCP | .MFF_IP_ECN | .MFF_IP_PROTO
    | .MFF_IPV4_SRC | .MFF_IPV4_DST
    | .MFF_TCP_SRC | .MFF_TCP_DST | .MFF_UDP_SRC | .MFF_UDP_DST
    | .MFF_ICMPV4_TYPE | .MFF_ICMPV4_CODE
    | .MFF_ARP_OP | .MFF_ARP_SPA | .MFF_ARP_TPA | .MFF_ARP_SHA | .MFF_ARP_THA
    | .MFF_IPV6_SRC | .MFF_IPV6_DST | .MFF_IPV6_LABEL
    | .MFF_ICMPV6_TYPE | .MFF_ICMPV6_CODE
    | .MFF_ND_TARGET | .MFF_ND_SLL | .MFF_ND_TLL
    | .MFF_MPLS_LABEL | .MFF_MPLS_TC => true
    | _ => false

/-- The fixed enumerated identifier set of the allow-list: exactly the
identifiers of the `return true` cases of `set_field_mf_allowed`'s switch. -/
def mff_in_allow_set (id : MffId) : Bool :=
  match id with
  | .MFF_ETH_SRC | .MFF_ETH_DST | .MFF_ETH_TYPE
  | .MFF_VLAN_VID | .MFF_VLAN_PCP
  | .MFF_IP_DSCP | .MFF_IP_ECN | .MFF_IP_PROTO
  | .MFF_IPV4_SRC | .MFF_IPV4_DST
  | .MFF_TCP_SRC | .MFF_TCP_DST | .MFF_UDP_SRC | .MFF_UDP_DST
  | .MFF_ICMPV4_TYPE | .MFF_ICMPV4_CODE
  | .MFF_ARP_OP | .MFF_ARP_SPA | .MFF_ARP_TPA | .MFF_ARP_SHA | .MFF_ARP_THA
  | .MFF_IPV6_SRC | .MFF_IPV6_DST | .MFF_IPV6_LABEL
  | .MFF_ICMPV6_TYPE | .MFF_ICMPV6_CODE
  | .MFF_ND_TARGET | .MFF_ND_SLL | .MFF_ND_TLL
  | .MFF_MPLS_LABEL | .MFF_MPLS_TC => true
  | _ => false

/-- `set_field_init` (set-field.c:98): stamps the compat tag and the
destination (field, offset 0, the field's full bit count) into the action. -/
def set_field_init (load : OfpactRegLoad) (mf : MfField) : OfpactRegLoad :=
  { load with
    compat := .OFPUTIL_OFPAT12_SET_FIELD
    dst := { field := mf, ofs := 0, n_bits := mf.n_bits } }

/-- The protocol error codes returned by this file.  Every failing path of the
source returns the single code `OFPERR_OFPBAC_BAD_ARGUMENT`; success is the
absence of an error (`0` in C, `none` here). -/
inductive Ofperr where
  | OFPERR_OFPBAC_BAD_ARGUMENT
deriving DecidableEq, Repr

/-- `set_field_check` (set-field.c:107).  The flow argument is unused by the
source (`OVS_UNUSED`); the `assert` on the compat tag is a debug no-op and is
not modelled (every action the source builds satisfies it).  The `#if 0`
prerequisite check is dead code and is not modelled. -/
def set_field_check (reg : Registry) (load : OfpactRegLoad)
    (_flow : Option Unit) : Option Ofperr :=
  if !set_field_mf_allowed load.dst.field then
    some .OFPERR_OFPBAC_BAD_ARGUMENT
  else if !reg.mf_is_value_valid load.dst.field load.value then
    some .OFPERR_OFPBAC_BAD_ARGUMENT
  else
    none

/-- The two failure sites of `set_field_check`, in source order: the
allow-list gate (spec kind `DisallowedField`) and the registry value-validity
gate (spec kind `InvalidValue`).  Both sites return the same error code
`OFPERR_OFPBAC_BAD_ARGUMENT` in the source; this type only records which
`return` statement fired. -/
inductive CheckSite where
  | disallowedField
  | invalidValue
deriving DecidableEq, Repr

/-- Instrumented copy of `set_field_check` recording which of its two return
sites produced the error. -/
def set_field_check_site (reg : Registry) (load : OfpactRegLoad)
    (_flow : Option Unit) : Option CheckSite :=
  if !set_field_mf_allowed load.dst.field then
    some .disallowedField
  else if !reg.mf_is_value_valid load.dst.field load.value then
    some .invalidValue
  else
    none

/-- Modelled from the spec: `nxm_reg_load_check` (nx-match.c, not under src/)
is the generic load check the decoder ends with; per the spec (§2 control
flow, §4.3 step 7) it runs the Validator of §4.2 on the constructed action —
with no flow, so the deferred prerequisite check is omitted, which is exactly
`set_field_check`. -/
def nxm_reg_load_check (reg : Registry) (load : OfpactRegLoad)
    (flow : Option Unit) : Option Ofperr :=
  set_field_check reg load flow

/-- Modelled from the spec: site-instrumented `nxm_reg_load_check`. -/
def nxm_reg_load_check_site (reg : Registry) (load : OfpactRegLoad)
    (flow : Option Unit) : Option CheckSite :=
  set_field_check_site reg load flow

/-- One byte of the wire record at absolute offset `i ≥ sizeof_oasf`
(`((const char *) oasf)[i]`); reads past the supplied payload are the
zero bytes of the caller's zero-padded buffer. -/
def oasf_byte (oasf : Ofp12ActionSetField) (i : Nat) : Nat :=
  oasf.payload.getD (i - sizeof_oasf) 0

/-- The padding loop of `set_field_from_openflow` (set-field.c:150): every
record byte from offset `sizeof_oasf + oxm_length` up to (excluding) `len`
is zero. -/
def padding_all_zero (oasf : Ofp12ActionSetField) : Bool :=
  (List.range' (sizeof_oasf + NXM_LENGTH oasf.oxm)
      (oasf.len - (sizeof_oasf + NXM_LENGTH oasf.oxm))).all
    (fun i => oasf_byte oasf i == 0)

/-- The action built by the decoder's success path (set-field.c:163-165):
`ofpact_put_REG_LOAD`, `set_field_init`, then `memcpy` of `mf->n_bytes`
value bytes from offset `sizeof_oasf` of the record. -/
def decoded_load (oasf : Ofp12ActionSetField) (mf : MfField) : OfpactRegLoad :=
  { set_field_init ofpact_put_REG_LOAD_default mf with
    value := memRead oasf.payload mf.n_bytes }

/-- `set_field_from_openflow` (set-field.c:134): decodes one wire record,
appending the decoded action to `ofpacts`; returns the error (if any)
together with the resulting buffer. -/
def set_field_from_openflow (reg : Registry) (oasf : Ofp12ActionSetField)
    (ofpacts : List OfpactRegLoad) : Option Ofperr × List OfpactRegLoad :=
  if oasf.len ≠ ROUND_UP (sizeof_oasf + NXM_LENGTH oasf.oxm) 8 then
    (some .OFPERR_OFPBAC_BAD_ARGUMENT, ofpacts)
  else if padding_all_zero oasf = false then
    (some .OFPERR_OFPBAC_BAD_ARGUMENT, ofpacts)
  else if NXM_HASMASK oasf.oxm then
    (some .OFPERR_OFPBAC_BAD_ARGUMENT, ofpacts)
  else
    match reg.mf_from_nxm_header oasf.oxm with
    | none => (some .OFPERR_OFPBAC_BAD_ARGUMENT, ofpacts)
    | some mf =>
      if mf.oxm_header == 0 then
        (some .OFPERR_OFPBAC_BAD_ARGUMENT, ofpacts)
      else
        (nxm_reg_load_check reg (decoded_load oasf mf) none,
         ofpacts ++ [decoded_load oasf mf])

/-- The failure sites of `set_field_from_openflow`, in source order: length
check (spec kind `BadLength`), padding loop (`BadPadding`), mask bit
(`MaskedFieldNotSupported`), registry lookup (`UnknownField`, covering both
`!mf` and `mf->oxm_header == 0`), and the final validator (whose own site is
recorded).  Every site returns the same code `OFPERR_OFPBAC_BAD_ARGUMENT` in
the source; this type only records which `return` fired. -/
inductive DecodeSite where
  | badLength
  | badPadding
  | maskedNotSupported
  | unknownField
  | validator (c : CheckSite)
deriving DecidableEq, Repr

/-- Instrumented copy of `set_field_from_openflow` recording which return
site produced the error. -/
def set_field_from_openflow_site (reg : Registry) (oasf : Ofp12ActionSetField)
    (ofpacts : List OfpactRegLoad) : Option DecodeSite × List OfpactRegLoad :=
  if oasf.len ≠ ROUND_UP (sizeof_oasf + NXM_LENGTH oasf.oxm) 8 then
    (some .badLength, ofpacts)
  else if padding_all_zero oasf = false then
    (some .badPadding, ofpacts)
  else if NXM_HASMASK oasf.oxm then
    (some .maskedNotSupported, ofpacts)
  else
    match reg.mf_from_nxm_header oasf.oxm with
    | none => (some .unknownField, ofpacts)
    | some mf =>
      if mf.oxm_header == 0 then
        (some .unknownField, ofpacts)
      else
        ((nxm_reg_load_check_site reg (decoded_load oasf mf) none).map .validator,
         ofpacts ++ [decoded_load oasf mf])

/-- `set_field_to_openflow` (set-field.c:170): encodes the action as a wire
record (the record it appends to the output buffer): total length rounded up
to a multiple of 8, the field's header code, `mf->n_bytes` value bytes, and
zero padding up to the rounded length. -/
def set_field_to_openflow (load : OfpactRegLoad) : Ofp12ActionSetField :=
  { len := ROUND_UP (sizeof_oasf + load.dst.field.n_bytes) 8
    oxm := load.dst.field.oxm_header
    payload :=
      memRead load.value load.dst.field.n_bytes ++
        List.replicate
          (ROUND_UP (sizeof_oasf + load.dst.field.n_bytes) 8 -
            (sizeof_oasf + load.dst.field.n_bytes)) 0 }

/-- `set_field_format` (set-field.c:194): `"set_field:"`, the registry's text
for the value, `"->"`, the field's name. -/
def set_field_format (reg : Registry) (load : OfpactRegLoad) : List Char :=
  "set_field:".data ++ reg.mf_format load.dst.field load.value ++
    "->".data ++ load.dst.field.name

/-- The outcome sites of `set_field_parse`, one per `ovs_fatal` call site, in
source order: missing `->` delimiter, missing field name after it (both spec
kind `SyntaxError`), name not resolving (`UnknownFieldName`), allow-list
rejection (`DisallowedField`), value-text rejection (`InvalidValueSyntax`),
value-validity rejection (`InvalidValue`).  The sites are distinguishable in
the source by their distinct fatal-error messages. -/
inductive ParseSite where
  | missingDelim
  | missingName
  | unknownFieldName
  | disallowedField
  | badValueText
  | invalidValue
deriving DecidableEq, Repr

/-- The outcome of `set_field_parse`.  Modelled from the spec: `ovs_fatal`
(util.h, not under src/) terminates the process (§9 "fatal-exit on parse
failure"); `fatal s` is that terminal outcome, tagged with the call site.
`ok` carries the instruction buffer after the parsed action was appended. -/
inductive ParseResult where
  | fatal (s : ParseSite)
  | ok (ofpacts : List OfpactRegLoad)
deriving DecidableEq, Repr

/-- `strstr(orig, "->")` followed by the split the source performs: the first
occurrence of `"->"` splits `arg` into the value text before it and the key
after it (`delim[0] = '\x27'` is never needed here because the model is
functional).  `none` when no occurrence exists. -/
def findArrow : List Char → Option (List Char × List Char)
  | [] => none
  | c :: cs =>
    if c = '-' && cs.headD 'x' = '>' then some ([], cs.tail)
    else Option.map (fun p => (c :: p.1, p.2)) (findArrow cs)

/-- `set_field_parse` (set-field.c:204).  The source appends the fresh action
(`ofpact_put_REG_LOAD`) before any check and fills it in place; since every
failing path terminates the process, the buffer is only observable on the
success path, where it carries the fully initialized action.  The check
`strlen(delim) <= strlen("->")` is exactly "nothing follows the delimiter",
i.e. the key part of the split is empty. -/
def set_field_parse (reg : Registry) (arg : List Char)
    (ofpacts : List OfpactRegLoad) : ParseResult :=
  match findArrow arg with
  | none => .fatal .missingDelim
  | some (value, key) =>
    if key = [] then .fatal .missingName
    else
      match reg.mf_parse_oxm_name key with
      | none => .fatal .unknownFieldName
      | some mf =>
        if !set_field_mf_allowed mf then .fatal .disallowedField
        else
          match reg.mf_parse_value mf value with
          | .error _ => .fatal .badValueText
          | .ok v =>
            if !reg.mf_is_value_valid mf v then .fatal .invalidValue
            else .ok (ofpacts ++
              [{ set_field_init ofpact_put_REG_LOAD_default mf with value := v }])

/-- Concrete fixture: an allow-listed IPv4-source descriptor whose wire
header 516 embeds declared value length 4 (516 % 256) with the mask bit
clear (516 / 256 = 2). -/
def wit_mf_src : MfField :=
  { id := .MFF_IPV4_SRC, writable := true, oxm_header := 516,
    n_bits := 32, n_bytes := 4, name := ['a'] }

/-- Concrete fixture: a generically writable VLAN-TCI descriptor (header 514,
declared length 2, no mask bit) that the allow-list excludes. -/
def wit_mf_tci : MfField :=
  { id := .MFF_VLAN_TCI, writable := true, oxm_header := 514,
    n_bits := 16, n_bytes := 2, name := ['t'] }

/-- Concrete fixture: an allow-listed descriptor whose registry wire header
1026 embeds declared value length 2 (1026 % 256) although the descriptor's
byte width is 4 — the header/byte-width disagreement of §9. -/
def wit_mf_mismatch : MfField :=
  { id := .MFF_IPV4_DST, writable := true, oxm_header := 1026,
    n_bits := 32, n_bytes := 4, name := ['d'] }

/-- Concrete registry fixture for the witness and counterexample theorems:
resolves the three fixture descriptors by header or name, rejects exactly the
value `[9]`, parses exactly the text `['v']` (to `[10, 0, 0, 1]`) and formats
every value as `['v']`. -/
def wit_reg : Registry :=
  { mf_from_nxm_header := fun h =>
      if h = 516 then some wit_mf_src
      else if h = 514 then some wit_mf_tci
      else if h = 1026 then some wit_mf_mismatch
      else none
    mf_parse_oxm_name := fun k =>
      if k = ['a'] then some wit_mf_src
      else if k = ['t'] then some wit_mf_tci
      else none
    mf_is_value_valid := fun _ v => decide (v ≠ [9])
    mf_parse_value := fun _ s =>
      if s = ['v'] then Except.ok [10, 0, 0, 1] else Except.error ['e']
    mf_format := fun _ _ => ['v'] }


theorem memRead_length (src : List Nat) (n : Nat) : (memRead src n).length = n := by
  induction n generalizing src with
  | zero => cases src <;> rfl
  | succ n ih =>
    cases src with
    | nil => simp [memRead, ih]
    | cons b bs => simp [memRead, ih]

theorem memRead_of_length_eq (src : List Nat) (n : Nat) (h : src.length = n) :
    memRead src n = src := by
  induction src generalizing n with
  | nil => subst h; rfl
  | cons b bs ih =>
    subst h
    simp only [List.length_cons, memRead]
    exact congrArg (b :: ·) (ih bs.length rfl)

theorem memRead_append_of_le (src t : List Nat) (n : Nat) (h : n ≤ src.length) :
    memRead (src ++ t) n = memRead src n := by
  induction n generalizing src with
  | zero => rfl
  | succ n ih =>
    cases src with
    | nil => exact absurd h (by simp)
    | cons b bs =>
      simp only [List.cons_append, memRead]
      exact congrArg (b :: ·) (ih bs (by simpa using h))

theorem getD_replicate_zero (p i : Nat) : (List.replicate p (0 : Nat)).getD i 0 = 0 := by
  induction p generalizing i with
  | zero => simp [List.getD]
  | succ p ih =>
    cases i with
    | zero => rfl
    | succ i => simp [List.replicate, ih i]

theorem getD_append_replicate_zero (l : List Nat) (p i : Nat) (h : l.length ≤ i) :
    (l ++ List.replicate p 0).getD i 0 = 0 := by
  induction l generalizing i with
  | nil => simp [getD_replicate_zero p i]
  | cons b bs ih =>
    cases i with
    | zero => simp at h
    | succ i => simpa using ih i (by simpa using h)

theorem le_ROUND_UP_8 (x : Nat) : x ≤ ROUND_UP x 8 := by
  unfold ROUND_UP
  omega

theorem padding_all_zero_iff (oasf : Ofp12ActionSetField) :
    padding_all_zero oasf = true ↔
      ∀ i, sizeof_oasf + NXM_LENGTH oasf.oxm ≤ i → i < oasf.len →
        oasf_byte oasf i = 0 := by
  unfold padding_all_zero
  rw [List.all_eq_true]
  constructor
  · intro h i h1 h2
    have hm : i ∈ List.range' (sizeof_oasf + NXM_LENGTH oasf.oxm)
        (oasf.len - (sizeof_oasf + NXM_LENGTH oasf.oxm)) :=
      List.mem_range'_1.mpr ⟨h1, by omega⟩
    simpa using h i hm
  · intro h i hi
    have hb := List.mem_range'_1.mp hi
    simp [h i hb.1 (by omega)]

theorem set_field_mf_allowed_eq (mf : MfField) :
    set_field_mf_allowed mf =
      (mf.writable && mf.oxm_header != 0 && mff_in_allow_set mf.id) := by
  unfold set_field_mf_allowed mff_in_allow_set
  by_cases hw : mf.writable <;> by_cases hz : mf.oxm_header = 0 <;>
    simp [hw, hz]

theorem allowed_oxm_ne_zero (mf : MfField) (h : set_field_mf_allowed mf = true) :
    mf.oxm_header ≠ 0 := by
  rw [set_field_mf_allowed_eq] at h
  simp only [Bool.and_eq_true, bne_iff_ne, ne_eq] at h
  exact h.1.2

theorem check_site_disallowed (reg : Registry) (load : OfpactRegLoad)
    (flow : Option Unit) (h : set_field_mf_allowed load.dst.field = false) :
    set_field_check_site reg load flow = some .disallowedField := by
  unfold set_field_check_site
  rw [if_pos (by simp [h])]

theorem check_site_invalid (reg : Registry) (load : OfpactRegLoad)
    (flow : Option Unit) (h1 : set_field_mf_allowed load.dst.field = true)
    (h2 : reg.mf_is_value_valid load.dst.field load.value = false) :
    set_field_check_site reg load flow = some .invalidValue := by
  unfold set_field_check_site
  rw [if_neg (by simp [h1]), if_pos (by simp [h2])]

theorem check_site_none (reg : Registry) (load : OfpactRegLoad)
    (flow : Option Unit) (h1 : set_field_mf_allowed load.dst.field = true)
    (h2 : reg.mf_is_value_valid load.dst.field load.value = true) :
    set_field_check_site reg load flow = none := by
  unfold set_field_check_site
  rw [if_neg (by simp [h1]), if_neg (by simp [h2])]

theorem check_erase (reg : Registry) (load : OfpactRegLoad) (flow : Option Unit) :
    set_field_check reg load flow =
      (set_field_check_site reg load flow).map
        (fun _ => .OFPERR_OFPBAC_BAD_ARGUMENT) := by
  unfold set_field_check set_field_check_site
  by_cases h1 : set_field_mf_allowed load.dst.field <;>
    by_cases h2 : reg.mf_is_value_valid load.dst.field load.value <;>
    simp [h1, h2]

theorem decode_site_badLength (reg : Registry) (oasf : Ofp12ActionSetField)
    (buf : List OfpactRegLoad)
    (h : oasf.len ≠ ROUND_UP (sizeof_oasf + NXM_LENGTH oasf.oxm) 8) :
    set_field_from_openflow_site reg oasf buf = (some .badLength, buf) := by
  unfold set_field_from_openflow_site
  rw [if_pos h]

theorem decode_site_badPadding (reg : Registry) (oasf : Ofp12ActionSetField)
    (buf : List OfpactRegLoad)
    (hL : oasf.len = ROUND_UP (sizeof_oasf + NXM_LENGTH oasf.oxm) 8)
    (hp : padding_all_zero oasf = false) :
    set_field_from_openflow_site reg oasf buf = (some .badPadding, buf) := by
  unfold set_field_from_openflow_site
  rw [if_neg (fun h => h hL), if_pos hp]

theorem decode_site_masked (reg : Registry) (oasf : Ofp12ActionSetField)
    (buf : List OfpactRegLoad)
    (hL : oasf.len = ROUND_UP (sizeof_oasf + NXM_LENGTH oasf.oxm) 8)
    (hp : padding_all_zero oasf = true)
    (hm : NXM_HASMASK oasf.oxm = true) :
    set_field_from_openflow_site reg oasf buf = (some .maskedNotSupported, buf) := by
  unfold set_field_from_openflow_site
  rw [if_neg (fun h => h hL), if_neg (by simp [hp]), if_pos (by simp [hm])]

theorem decode_site_unknown_none (reg : Registry) (oasf : Ofp12ActionSetField)
    (buf : List OfpactRegLoad)
    (hL : oasf.len = ROUND_UP (sizeof_oasf + NXM_LENGTH oasf.oxm) 8)
    (hp : padding_all_zero oasf = true)
    (hm : NXM_HASMASK oasf.oxm = false)
    (hlook : reg.mf_from_nxm_header oasf.oxm = none) :
    set_field_from_openflow_site reg oasf buf = (some .unknownField, buf) := by
  unfold set_field_from_openflow_site
  rw [if_neg (fun h => h hL), if_neg (by simp [hp]), if_neg (by simp [hm]), hlook]

theorem decode_site_unknown_zero (reg : Registry) (oasf : Ofp12ActionSetField)
    (buf : List OfpactRegLoad) (mf : MfField)
    (hL : oasf.len = ROUND_UP (sizeof_oasf + NXM_LENGTH oasf.oxm) 8)
    (hp : padding_all_zero oasf = true)
    (hm : NXM_HASMASK oasf.oxm = false)
    (hlook : reg.mf_from_nxm_header oasf.oxm = some mf)
    (hz : mf.oxm_header = 0) :
    set_field_from_openflow_site reg oasf buf = (some .unknownField, buf) := by
  unfold set_field_from_openflow_site
  rw [if_neg (fun h => h hL), if_neg (by simp [hp]), if_neg (by simp [hm]), hlook]
  exact if_pos (by simp [hz])

theorem decode_site_resolved (reg : Registry) (oasf : Ofp12ActionSetField)
    (buf : List OfpactRegLoad) (mf : MfField)
    (hL : oasf.len = ROUND_UP (sizeof_oasf + NXM_LENGTH oasf.oxm) 8)
    (hp : padding_all_zero oasf = true)
    (hm : NXM_HASMASK oasf.oxm = false)
    (hlook : reg.mf_from_nxm_header oasf.oxm = some mf)
    (hz : mf.oxm_header ≠ 0) :
    set_field_from_openflow_site reg oasf buf =
      ((set_field_check_site reg (decoded_load oasf mf) none).map .validator,
       buf ++ [decoded_load oasf mf]) := by
  unfold set_field_from_openflow_site nxm_reg_load_check_site
  rw [if_neg (fun h => h hL), if_neg (by simp [hp]), if_neg (by simp [hm]), hlook]
  exact if_neg (by simp [hz])

theorem decode_erase (reg : Registry) (oasf : Ofp12ActionSetField)
    (buf : List OfpactRegLoad) :
    set_field_from_openflow reg oasf buf =
      ((set_field_from_openflow_site reg oasf buf).1.map
         (fun _ => .OFPERR_OFPBAC_BAD_ARGUMENT),
       (set_field_from_openflow_site reg oasf buf).2) := by
  by_cases hL : oasf.len = ROUND_UP (sizeof_oasf + NXM_LENGTH oasf.oxm) 8
  · by_cases hp : padding_all_zero oasf = false
    · simp [set_field_from_openflow, set_field_from_openflow_site, hL, hp]
    · by_cases hm : NXM_HASMASK oasf.oxm = true
      · simp [set_field_from_openflow, set_field_from_openflow_site, hL, hp, hm]
      · cases hlook : reg.mf_from_nxm_header oasf.oxm with
        | none =>
          simp [set_field_from_openflow, set_field_from_openflow_site,
            hL, hp, hm, hlook]
        | some mf =>
          by_cases hz : mf.oxm_header = 0
          · simp [set_field_from_openflow, set_field_from_openflow_site,
              hL, hp, hm, hlook, hz]
          · simp [set_field_from_openflow, set_field_from_openflow_site,
              nxm_reg_load_check, nxm_reg_load_check_site,
              hL, hp, hm, hlook, hz, check_erase]
  · simp [set_field_from_openflow, set_field_from_openflow_site, hL]

theorem findArrow_append_arrow (v rest : List Char) (h : findArrow v = none) :
    findArrow (v ++ '-' :: '>' :: rest) = some (v, rest) := by
  induction v with
  | nil => rfl
  | cons c cs ih =>
    rw [List.cons_append]
    unfold findArrow at h ⊢
    by_cases hc : c = '-'
    · by_cases hd : cs.headD 'x' = '>'
      · rw [if_pos (by rw [hc, hd]; decide)] at h
        exact absurd h (by simp)
      · rw [if_neg (by
            simp only [Bool.and_eq_true, decide_eq_true_eq]
            exact fun hp => hd hp.2)] at h
        have hcs : findArrow cs = none := by
          cases hfa : findArrow cs with
          | none => rfl
          | some p => rw [hfa] at h; simp at h
        have hd2 : (cs ++ '-' :: '>' :: rest).headD 'x' ≠ '>' := by
          cases cs with
          | nil => exact (by decide : ('-' : Char) ≠ '>')
          | cons d ds => simpa using hd
        rw [if_neg (by
          simp only [Bool.and_eq_true, decide_eq_true_eq]
          exact fun hp => hd2 hp.2), ih hcs]
        rfl
    · rw [if_neg (by
          simp only [Bool.and_eq_true, decide_eq_true_eq]
          exact fun hp => hc hp.1)] at h
      have hcs : findArrow cs = none := by
        cases hfa : findArrow cs with
        | none => rfl
        | some p => rw [hfa] at h; simp at h
      rw [if_neg (by
        simp only [Bool.and_eq_true, decide_eq_true_eq]
        exact fun hp => hc hp.1), ih hcs]
      rfl

theorem parse_resolved (reg : Registry) (arg value key : List Char)
    (mf : MfField) (buf : List OfpactRegLoad)
    (hsplit : findArrow arg = some (value, key))
    (hkey : key ≠ [])
    (hres : reg.mf_parse_oxm_name key = some mf) :
    set_field_parse reg arg buf =
      (if !set_field_mf_allowed mf then .fatal .disallowedField
       else
         match reg.mf_parse_value mf value with
         | .error _ => .fatal .badValueText
         | .ok v =>
           if !reg.mf_is_value_valid mf v then .fatal .invalidValue
           else .ok (buf ++
             [{ set_field_init ofpact_put_REG_LOAD_default mf with value := v }])) := by
  unfold set_field_parse
  simp only [hsplit]
  rw [if_neg hkey]
  simp only [hres]

theorem encode_load_eq (mf : MfField) (v : List Nat) :
    set_field_to_openflow
        { set_field_init ofpact_put_REG_LOAD_default mf with value := v } =
      { len := ROUND_UP (sizeof_oasf + mf.n_bytes) 8
        oxm := mf.oxm_header
        payload := memRead v mf.n_bytes ++
          List.replicate
            (ROUND_UP (sizeof_oasf + mf.n_bytes) 8 - (sizeof_oasf + mf.n_bytes)) 0 } :=
  rfl

theorem encode_padding_all_zero (mf : MfField) (v : List Nat)
    (hoxlen : NXM_LENGTH mf.oxm_header = mf.n_bytes) :
    padding_all_zero
      (set_field_to_openflow
        { set_field_init ofpact_put_REG_LOAD_default mf with value := v }) = true := by
  rw [encode_load_eq, padding_all_zero_iff]
  intro i h1 h2
  unfold oasf_byte
  simp only []
  apply getD_append_replicate_zero
  rw [memRead_length]
  simp only [hoxlen, sizeof_oasf] at h1
  unfold sizeof_oasf
  omega

theorem decode_encode_value (mf : MfField) (v : List Nat)
    (hlenv : v.length = mf.n_bytes) :
    memRead
        (memRead v mf.n_bytes ++
          List.replicate
            (ROUND_UP (sizeof_oasf + mf.n_bytes) 8 - (sizeof_oasf + mf.n_bytes)) 0)
        mf.n_bytes = v := by
  rw [memRead_append_of_le _ _ _ (by rw [memRead_length]),
    memRead_of_length_eq _ _ (memRead_length v mf.n_bytes),
    memRead_of_length_eq _ _ hlenv]

theorem decode_encode_resolved (reg : Registry) (mf : MfField) (v : List Nat)
    (buf : List OfpactRegLoad)
    (hz : mf.oxm_header ≠ 0)
    (hlenv : v.length = mf.n_bytes)
    (hlook : reg.mf_from_nxm_header mf.oxm_header = some mf)
    (hoxlen : NXM_LENGTH mf.oxm_header = mf.n_bytes)
    (hnomask : NXM_HASMASK mf.oxm_header = false) :
    set_field_from_openflow_site reg
        (set_field_to_openflow
          { set_field_init ofpact_put_REG_LOAD_default mf with value := v }) buf =
      ((set_field_check_site reg
          { set_field_init ofpact_put_REG_LOAD_default mf with value := v } none).map
         .validator,
       buf ++ [{ set_field_init ofpact_put_REG_LOAD_default mf with value := v }]) := by
  have hload : decoded_load
      (set_field_to_openflow
        { set_field_init ofpact_put_REG_LOAD_default mf with value := v }) mf =
      { set_field_init ofpact_put_REG_LOAD_default mf with value := v } := by
    unfold decoded_load
    rw [encode_load_eq]
    simp only []
    rw [decode_encode_value mf v hlenv]
  rw [decode_site_resolved reg _ buf mf ?hL (encode_padding_all_zero mf v hoxlen)
      ?hm hlook hz, hload]
  case hL =>
    rw [encode_load_eq]
    simp only [hoxlen]
  case hm =>
    rw [encode_load_eq]
    exact hnomask

/-- Claim C1: wire round-trip.  For every field `mf` accepted by the
allow-list and every value `v` of the field's byte width that the registry's
value-validity predicate accepts — with the registry coherent on `mf` (its
own wire header resolves back to it, the header's embedded length is the
field's byte width, and its mask bit is clear) — decoding the wire record
produced by encoding the action succeeds and appends exactly the same action
to the output buffer: same target descriptor, bit offset 0, bit count equal
to the field's full bit width, and identical value bytes. -/
theorem c1_wire_roundtrip (reg : Registry) (mf : MfField) (v : List Nat)
    (buf : List OfpactRegLoad)
    (hallow : set_field_mf_allowed mf = true)
    (hvalid : reg.mf_is_value_valid mf v = true)
    (hlenv : v.length = mf.n_bytes)
    (hlook : reg.mf_from_nxm_header mf.oxm_header = some mf)
    (hoxlen : NXM_LENGTH mf.oxm_header = mf.n_bytes)
    (hnomask : NXM_HASMASK mf.oxm_header = false) :
    set_field_from_openflow reg
        (set_field_to_openflow
          { set_field_init ofpact_put_REG_LOAD_default mf with value := v }) buf =
      (none,
       buf ++ [{ set_field_init ofpact_put_REG_LOAD_default mf with value := v }]) := by
  rw [decode_erase,
    decode_encode_resolved reg mf v buf (allowed_oxm_ne_zero mf hallow) hlenv
      hlook hoxlen hnomask,
    check_site_none reg _ none hallow hvalid]
  rfl

/-- Witness for C1: the concrete allow-listed fixture field with value
`[10, 0, 0, 1]` in the fixture registry. -/
theorem c1_wire_roundtrip_witness :
    set_field_from_openflow wit_reg
        (set_field_to_openflow
          { set_field_init ofpact_put_REG_LOAD_default wit_mf_src with
            value := [10, 0, 0, 1] }) [] =
      (none,
       [{ set_field_init ofpact_put_REG_LOAD_default wit_mf_src with
          value := [10, 0, 0, 1] }]) :=
  c1_wire_roundtrip wit_reg wit_mf_src [10, 0, 0, 1] [] (by decide) (by decide)
    (by decide) (by decide) (by decide) (by decide)

/-- Claim C2: allow-list exclusivity.  (1) `set_field_mf_allowed` returns
true only for descriptors that are writable, have a non-zero wire header and
whose identifier is in the fixed enumerated set `mff_in_allow_set` — a set
that excludes tunnel id, input port, the register fields, VLAN TCI/TPID, the
QinQ fields, and IP TTL/fragmentation.  (2) For every descriptor whose
identifier is outside that set — even one the registry marks writable —
decoding an otherwise well-formed record that resolves to it fails at the
validator's allow-list gate (spec kind `DisallowedField`, source error
`OFPERR_OFPBAC_BAD_ARGUMENT`), and (3) parsing a text whose field name
resolves to it fails at the allow-list gate, before any value parsing. -/
theorem c2_allow_list_exclusivity :
    (∀ mf : MfField, set_field_mf_allowed mf = true →
       mf.writable = true ∧ mf.oxm_header ≠ 0 ∧ mff_in_allow_set mf.id = true) ∧
    (∀ (reg : Registry) (mf : MfField) (v : List Nat) (buf : List OfpactRegLoad),
       mff_in_allow_set mf.id = false →
       mf.oxm_header ≠ 0 →
       v.length = mf.n_bytes →
       reg.mf_from_nxm_header mf.oxm_header = some mf →
       NXM_LENGTH mf.oxm_header = mf.n_bytes →
       NXM_HASMASK mf.oxm_header = false →
       (set_field_from_openflow_site reg
           (set_field_to_openflow
             { set_field_init ofpact_put_REG_LOAD_default mf with value := v })
           buf).1 = some (.validator .disallowedField) ∧
       (set_field_from_openflow reg
           (set_field_to_openflow
             { set_field_init ofpact_put_REG_LOAD_default mf with value := v })
           buf).1 = some .OFPERR_OFPBAC_BAD_ARGUMENT) ∧
    (∀ (reg : Registry) (arg value key : List Char) (mf : MfField)
       (buf : List OfpactRegLoad),
       findArrow arg = some (value, key) → key ≠ [] →
       reg.mf_parse_oxm_name key = some mf →
       mff_in_allow_set mf.id = false →
       set_field_parse reg arg buf = .fatal .disallowedField) := by
  refine ⟨fun mf h => ?_, fun reg mf v buf hset hz hlenv hlook hoxlen hnomask => ?_,
    fun reg arg value key mf buf hsplit hkey hres hset => ?_⟩
  · rw [set_field_mf_allowed_eq] at h
    simp only [Bool.and_eq_true, bne_iff_ne, ne_eq] at h
    exact ⟨h.1.1, h.1.2, h.2⟩
  · have hdis : set_field_mf_allowed mf = false := by
      rw [set_field_mf_allowed_eq, hset]
      simp
    constructor
    · rw [decode_encode_resolved reg mf v buf hz hlenv hlook hoxlen hnomask,
        check_site_disallowed reg _ none hdis]
      rfl
    · rw [decode_erase,
        decode_encode_resolved reg mf v buf hz hlenv hlook hoxlen hnomask,
        check_site_disallowed reg _ none hdis]
      rfl
  · have hdis : set_field_mf_allowed mf = false := by
      rw [set_field_mf_allowed_eq, hset]
      simp
    rw [parse_resolved reg arg value key mf buf hsplit hkey hres,
      if_pos (by simp [hdis])]

/-- Witness for C2: the generically writable but excluded VLAN-TCI fixture
descriptor is rejected by both decode and parse. -/
theorem c2_allow_list_exclusivity_witness :
    (set_field_from_openflow wit_reg
        (set_field_to_openflow
          { set_field_init ofpact_put_REG_LOAD_default wit_mf_tci with
            value := [5, 5] }) []).1 = some .OFPERR_OFPBAC_BAD_ARGUMENT ∧
    set_field_parse wit_reg ['v', '-', '>', 't'] [] = .fatal .disallowedField :=
  ⟨(c2_allow_list_exclusivity.2.1 wit_reg wit_mf_tci [5, 5] [] (by decide)
      (by decide) (by decide) (by decide) (by decide) (by decide)).2,
   c2_allow_list_exclusivity.2.2 wit_reg ['v', '-', '>', 't'] ['v'] ['t']
     wit_mf_tci [] (by decide) (by decide) (by decide) (by decide)⟩

/-- Claim C3 (amended): validator behaviour.  For every registry, action and
flow, `set_field_check` is a pure function that fails when the target is not
allow-listed (at its first return site, spec kind `DisallowedField`),
otherwise fails when the registry's value-validity predicate rejects the
value (at its second return site, spec kind `InvalidValue`), and otherwise
succeeds.  Amendment forced by the counterexample: the two failure cases are
distinguishable only as distinct return sites with distinct causes — both
return the same error code `OFPERR_OFPBAC_BAD_ARGUMENT`, so the source does
not return distinct error kinds. -/
theorem c3_check_behaviour (reg : Registry) (load : OfpactRegLoad)
    (flow : Option Unit) :
    (set_field_mf_allowed load.dst.field = false →
       set_field_check reg load flow = some .OFPERR_OFPBAC_BAD_ARGUMENT ∧
       set_field_check_site reg load flow = some .disallowedField) ∧
    (set_field_mf_allowed load.dst.field = true →
       reg.mf_is_value_valid load.dst.field load.value = false →
       set_field_check reg load flow = some .OFPERR_OFPBAC_BAD_ARGUMENT ∧
       set_field_check_site reg load flow = some .invalidValue) ∧
    (set_field_mf_allowed load.dst.field = true →
       reg.mf_is_value_valid load.dst.field load.value = true →
       set_field_check reg load flow = none ∧
       set_field_check_site reg load flow = none) := by
  refine ⟨fun h => ⟨?_, check_site_disallowed reg load flow h⟩,
    fun h1 h2 => ⟨?_, check_site_invalid reg load flow h1 h2⟩,
    fun h1 h2 => ⟨?_, check_site_none reg load flow h1 h2⟩⟩
  · rw [check_erase, check_site_disallowed reg load flow h]; rfl
  · rw [check_erase, check_site_invalid reg load flow h1 h2]; rfl
  · rw [check_erase, check_site_none reg load flow h1 h2]; rfl

/-- Witness for C3 (amended): the three cases at concrete actions in the
fixture registry. -/
theorem c3_check_behaviour_witness :
    set_field_check wit_reg
        { set_field_init ofpact_put_REG_LOAD_default wit_mf_tci with
          value := [0, 0] } none = some .OFPERR_OFPBAC_BAD_ARGUMENT ∧
    set_field_check wit_reg
        { set_field_init ofpact_put_REG_LOAD_default wit_mf_src with
          value := [9] } none = some .OFPERR_OFPBAC_BAD_ARGUMENT ∧
    set_field_check wit_reg
        { set_field_init ofpact_put_REG_LOAD_default wit_mf_src with
          value := [10, 0, 0, 1] } none = none :=
  ⟨((c3_check_behaviour wit_reg _ none).1 (by decide)).1,
   ((c3_check_behaviour wit_reg _ none).2.1 (by decide) (by decide)).1,
   ((c3_check_behaviour wit_reg _ none).2.2 (by decide) (by decide)).1⟩

/-- Claim C3 counterexample: the claim asserts that `DisallowedField` and
`InvalidValue` are distinct error kinds, but the source returns the single
code `OFPERR_OFPBAC_BAD_ARGUMENT` from both failure sites.  Here one concrete
action fails the allow-list gate and another fails the value-validity gate
(the instrumented check distinguishes the sites), yet `set_field_check`
returns identical error values for the two. -/
theorem c3_counterexample :
    set_field_check_site wit_reg
        { set_field_init ofpact_put_REG_LOAD_default wit_mf_tci with
          value := [0, 0] } none = some .disallowedField ∧
    set_field_check_site wit_reg
        { set_field_init ofpact_put_REG_LOAD_default wit_mf_src with
          value := [9] } none = some .invalidValue ∧
    set_field_check wit_reg
        { set_field_init ofpact_put_REG_LOAD_default wit_mf_tci with
          value := [0, 0] } none =
      set_field_check wit_reg
        { set_field_init ofpact_put_REG_LOAD_default wit_mf_src with
          value := [9] } none := by
  decide

/-- Claim C4: length check.  For every wire record, decode fails at the
length-check site (spec kind `BadLength`, source error
`OFPERR_OFPBAC_BAD_ARGUMENT`) whenever — and only whenever — the declared
total length differs from `ROUND_UP(sizeof_oasf + declared_value_length, 8)`,
where the declared value length is the one embedded in the field-header code;
no other precondition is needed, so the length check runs before every other
decode check.  The boundary declared value lengths 0, 1, 7, 8 and 9 are
exercised by the witness. -/
theorem c4_length_check (reg : Registry) (oasf : Ofp12ActionSetField)
    (buf : List OfpactRegLoad) :
    (oasf.len ≠ ROUND_UP (sizeof_oasf + NXM_LENGTH oasf.oxm) 8 →
       set_field_from_openflow_site reg oasf buf = (some .badLength, buf) ∧
       set_field_from_openflow reg oasf buf =
         (some .OFPERR_OFPBAC_BAD_ARGUMENT, buf)) ∧
    (oasf.len = ROUND_UP (sizeof_oasf + NXM_LENGTH oasf.oxm) 8 →
       (set_field_from_openflow_site reg oasf buf).1 ≠ some .badLength) := by
  constructor
  · intro h
    exact ⟨decode_site_badLength reg oasf buf h, by
      rw [decode_erase, decode_site_badLength reg oasf buf h]; rfl⟩
  · intro hL
    by_cases hp : padding_all_zero oasf = false
    · rw [decode_site_badPadding reg oasf buf hL hp]; simp
    · have hp' : padding_all_zero oasf = true := by
        cases hpt : padding_all_zero oasf
        · exact absurd hpt hp
        · rfl
      by_cases hm : NXM_HASMASK oasf.oxm = true
      · rw [decode_site_masked reg oasf buf hL hp' hm]; simp
      · have hm' : NXM_HASMASK oasf.oxm = false := by
          cases hmt : NXM_HASMASK oasf.oxm
          · rfl
          · exact absurd hmt hm
        cases hlook : reg.mf_from_nxm_header oasf.oxm with
        | none =>
          rw [decode_site_unknown_none reg oasf buf hL hp' hm' hlook]; simp
        | some mf =>
          by_cases hz : mf.oxm_header = 0
          · rw [decode_site_unknown_zero reg oasf buf mf hL hp' hm' hlook hz]
            simp
          · rw [decode_site_resolved reg oasf buf mf hL hp' hm' hlook hz]
            cases set_field_check_site reg (decoded_load oasf mf) none <;> simp

/-- Witness for C4: records with declared value lengths 0, 1, 7, 8 and 9
(headers 512..521) and declared total length 12, which matches none of the
required rounded lengths 8, 16, 16, 16 and 24. -/
theorem c4_length_check_witness :
    set_field_from_openflow wit_reg { len := 12, oxm := 512, payload := [] } [] =
      (some .OFPERR_OFPBAC_BAD_ARGUMENT, []) ∧
    set_field_from_openflow wit_reg { len := 12, oxm := 513, payload := [] } [] =
      (some .OFPERR_OFPBAC_BAD_ARGUMENT, []) ∧
    set_field_from_openflow wit_reg { len := 12, oxm := 519, payload := [] } [] =
      (some .OFPERR_OFPBAC_BAD_ARGUMENT, []) ∧
    set_field_from_openflow wit_reg { len := 12, oxm := 520, payload := [] } [] =
      (some .OFPERR_OFPBAC_BAD_ARGUMENT, []) ∧
    set_field_from_openflow wit_reg { len := 12, oxm := 521, payload := [] } [] =
      (some .OFPERR_OFPBAC_BAD_ARGUMENT, []) :=
  ⟨((c4_length_check wit_reg _ []).1 (by decide)).2,
   ((c4_length_check wit_reg _ []).1 (by decide)).2,
   ((c4_length_check wit_reg _ []).1 (by decide)).2,
   ((c4_length_check wit_reg _ []).1 (by decide)).2,
   ((c4_length_check wit_reg _ []).1 (by decide)).2⟩

/-- Claim C5: padding strictness.  For every wire record whose declared
length satisfies the rounding rule, decode fails at the padding-loop site
(spec kind `BadPadding`, source error `OFPERR_OFPBAC_BAD_ARGUMENT`) if any
record byte at an offset from `sizeof_oasf + declared_value_length` up to
(exclusive) the declared length is non-zero; and decode succeeds only when
every byte in that padding region is zero. -/
theorem c5_padding_strictness (reg : Registry) (oasf : Ofp12ActionSetField)
    (buf : List OfpactRegLoad)
    (hL : oasf.len = ROUND_UP (sizeof_oasf + NXM_LENGTH oasf.oxm) 8) :
    (∀ i, sizeof_oasf + NXM_LENGTH oasf.oxm ≤ i → i < oasf.len →
       oasf_byte oasf i ≠ 0 →
       set_field_from_openflow_site reg oasf buf = (some .badPadding, buf) ∧
       set_field_from_openflow reg oasf buf =
         (some .OFPERR_OFPBAC_BAD_ARGUMENT, buf)) ∧
    ((set_field_from_openflow_site reg oasf buf).1 = none →
       ∀ i, sizeof_oasf + NXM_LENGTH oasf.oxm ≤ i → i < oasf.len →
         oasf_byte oasf i = 0) := by
  constructor
  · intro i h1 h2 hnz
    have hp : padding_all_zero oasf = false := by
      cases hpt : padding_all_zero oasf
      · rfl
      · exact absurd ((padding_all_zero_iff oasf).mp hpt i h1 h2) hnz
    exact ⟨decode_site_badPadding reg oasf buf hL hp, by
      rw [decode_erase, decode_site_badPadding reg oasf buf hL hp]; rfl⟩
  · intro hs
    have hp : padding_all_zero oasf = true := by
      cases hpt : padding_all_zero oasf
      · rw [decode_site_badPadding reg oasf buf hL hpt] at hs
        simp at hs
      · rfl
    exact (padding_all_zero_iff oasf).mp hp

/-- Witness for C5: a record with declared value length 4, correct total
length 16, and a non-zero byte (9) at record offset 12, the first padding
byte. -/
theorem c5_padding_strictness_witness :
    set_field_from_openflow wit_reg
        { len := 16, oxm := 516, payload := [1, 2, 3, 4, 9, 0, 0, 0] } [] =
      (some .OFPERR_OFPBAC_BAD_ARGUMENT, []) :=
  ((c5_padding_strictness wit_reg
      { len := 16, oxm := 516, payload := [1, 2, 3, 4, 9, 0, 0, 0] } []
      (by decide)).1 12 (by decide) (by decide) (by decide)).2

/-- Claim C6: masked rejection.  For every wire record that passes the length
and padding checks but whose field-header code has its mask bit set, decode
fails at the mask-check site (spec kind `MaskedFieldNotSupported`, source
error `OFPERR_OFPBAC_BAD_ARGUMENT`) regardless of the registry — the check
runs before the registry lookup, and no partial support of masked variants
exists. -/
theorem c6_masked_rejection (reg : Registry) (oasf : Ofp12ActionSetField)
    (buf : List OfpactRegLoad)
    (hL : oasf.len = ROUND_UP (sizeof_oasf + NXM_LENGTH oasf.oxm) 8)
    (hp : padding_all_zero oasf = true)
    (hmask : NXM_HASMASK oasf.oxm = true) :
    set_field_from_openflow_site reg oasf buf = (some .maskedNotSupported, buf) ∧
    set_field_from_openflow reg oasf buf =
      (some .OFPERR_OFPBAC_BAD_ARGUMENT, buf) :=
  ⟨decode_site_masked reg oasf buf hL hp hmask, by
    rw [decode_erase, decode_site_masked reg oasf buf hL hp hmask]; rfl⟩

/-- Witness for C6: header 260 has declared value length 4 and the mask bit
set (260 / 256 = 1); the record is otherwise fully well-formed. -/
theorem c6_masked_rejection_witness :
    set_field_from_openflow wit_reg
        { len := 16, oxm := 260, payload := [1, 2, 3, 4, 0, 0, 0, 0] } [] =
      (some .OFPERR_OFPBAC_BAD_ARGUMENT, []) :=
  (c6_masked_rejection wit_reg
      { len := 16, oxm := 260, payload := [1, 2, 3, 4, 0, 0, 0, 0] } []
      (by decide) (by decide) (by decide)).2

/-- Claim C7 (amended): no declared-length / byte-width agreement check.
Whenever the length, padding and mask checks pass and the field-header code
resolves to a descriptor with a non-zero wire header, decode constructs the
action by copying exactly `mf.n_bytes` bytes from the record's value offset
and hands it to the validator — regardless of whether the header's embedded
declared value length equals the descriptor's byte width.  Amendment forced
by the counterexample: the source has no such agreement check, so a mismatch
is not reported as `BadLength`; when the byte width exceeds the declared
value length the copied bytes extend into the padding region. -/
theorem c7_no_agreement_check (reg : Registry) (oasf : Ofp12ActionSetField)
    (buf : List OfpactRegLoad) (mf : MfField)
    (hL : oasf.len = ROUND_UP (sizeof_oasf + NXM_LENGTH oasf.oxm) 8)
    (hp : padding_all_zero oasf = true)
    (hm : NXM_HASMASK oasf.oxm = false)
    (hlook : reg.mf_from_nxm_header oasf.oxm = some mf)
    (hz : mf.oxm_header ≠ 0) :
    set_field_from_openflow_site reg oasf buf =
      ((set_field_check_site reg
          { set_field_init ofpact_put_REG_LOAD_default mf with
            value := memRead oasf.payload mf.n_bytes } none).map .validator,
       buf ++ [{ set_field_init ofpact_put_REG_LOAD_default mf with
                 value := memRead oasf.payload mf.n_bytes }]) :=
  decode_site_resolved reg oasf buf mf hL hp hm hlook hz

/-- Witness for C7 (amended): at the mismatch fixture the resolved action's
value is `[1, 2, 0, 0]`, i.e. the descriptor's 4 bytes although the header
declared only 2, and the decode succeeds end to end. -/
theorem c7_no_agreement_check_witness :
    set_field_from_openflow_site wit_reg
        { len := 16, oxm := 1026, payload := [1, 2, 0, 0, 0, 0, 0, 0] } [] =
      (none,
       [{ set_field_init ofpact_put_REG_LOAD_default wit_mf_mismatch with
          value := [1, 2, 0, 0] }]) := by
  rw [c7_no_agreement_check wit_reg
      { len := 16, oxm := 1026, payload := [1, 2, 0, 0, 0, 0, 0, 0] } []
      wit_mf_mismatch (by decide) (by decide) (by decide) (by decide) (by decide)]
  decide

/-- Claim C7 counterexample: the claim asserts that decode fails with
`BadLength` when the header's embedded declared value length (here 2, from
header 1026) differs from the resolved descriptor's byte width (here 4), and
that decode never reads bytes beyond the declared value region.  On this
concrete record decode instead succeeds, and the action it appends carries
the value `[1, 2, 0, 0]`, whose last two bytes were read from the padding
region beyond the 2 declared value bytes. -/
theorem c7_counterexample :
    NXM_LENGTH 1026 ≠ wit_mf_mismatch.n_bytes ∧
    set_field_from_openflow wit_reg
        { len := 16, oxm := 1026, payload := [1, 2, 0, 0, 0, 0, 0, 0] } [] =
      (none,
       [{ set_field_init ofpact_put_REG_LOAD_default wit_mf_mismatch with
          value := [1, 2, 0, 0] }]) := by
  decide

/-- Claim C8 (amended): text-parser check order.  For every input string, the
parser performs its checks in exactly this order — missing `->` delimiter,
nothing after the delimiter (both spec kind `SyntaxError`), field name not
resolving in the registry (`UnknownFieldName`), allow-list rejection
(`DisallowedField`, before any value parsing), value-text rejection by the
registry's text parser (`InvalidValueSyntax`), value-validity rejection
(`InvalidValue`) — and only when every check passes is the action
constructed and appended.  Amendment forced by the counterexample: on each
failing check the source terminates the process via `ovs_fatal` (the `fatal`
outcome) rather than surfacing a recoverable typed failure to its caller. -/
theorem c8_parse_order (reg : Registry) (arg : List Char)
    (buf : List OfpactRegLoad) :
    (findArrow arg = none →
       set_field_parse reg arg buf = .fatal .missingDelim) ∧
    (∀ value, findArrow arg = some (value, []) →
       set_field_parse reg arg buf = .fatal .missingName) ∧
    (∀ value key, findArrow arg = some (value, key) → key ≠ [] →
       reg.mf_parse_oxm_name key = none →
       set_field_parse reg arg buf = .fatal .unknownFieldName) ∧
    (∀ value key mf, findArrow arg = some (value, key) → key ≠ [] →
       reg.mf_parse_oxm_name key = some mf →
       set_field_mf_allowed mf = false →
       set_field_parse reg arg buf = .fatal .disallowedField) ∧
    (∀ value key mf e, findArrow arg = some (value, key) → key ≠ [] →
       reg.mf_parse_oxm_name key = some mf →
       set_field_mf_allowed mf = true →
       reg.mf_parse_value mf value = .error e →
       set_field_parse reg arg buf = .fatal .badValueText) ∧
    (∀ value key mf v, findArrow arg = some (value, key) → key ≠ [] →
       reg.mf_parse_oxm_name key = some mf →
       set_field_mf_allowed mf = true →
       reg.mf_parse_value mf value = .ok v →
       reg.mf_is_value_valid mf v = false →
       set_field_parse reg arg buf = .fatal .invalidValue) ∧
    (∀ value key mf v, findArrow arg = some (value, key) → key ≠ [] →
       reg.mf_parse_oxm_name key = some mf →
       set_field_mf_allowed mf = true →
       reg.mf_parse_value mf value = .ok v →
       reg.mf_is_value_valid mf v = true →
       set_field_parse reg arg buf = .ok (buf ++
         [{ set_field_init ofpact_put_REG_LOAD_default mf with value := v }])) := by
  refine ⟨fun h => ?_, fun value h => ?_, fun value key h hk hres => ?_,
    fun value key mf h hk hres hdis => ?_,
    fun value key mf e h hk hres hall hpv => ?_,
    fun value key mf v h hk hres hall hpv hval => ?_,
    fun value key mf v h hk hres hall hpv hval => ?_⟩
  · unfold set_field_parse
    rw [h]
  · unfold set_field_parse
    simp only [h]
    simp
  · unfold set_field_parse
    simp only [h]
    rw [if_neg hk]
    simp only [hres]
  · rw [parse_resolved reg arg value key mf buf h hk hres,
      if_pos (by simp [hdis])]
  · rw [parse_resolved reg arg value key mf buf h hk hres,
      if_neg (by simp [hall])]
    simp only [hpv]
  · rw [parse_resolved reg arg value key mf buf h hk hres,
      if_neg (by simp [hall])]
    simp only [hpv]
    rw [if_pos (by simp [hval])]
  · rw [parse_resolved reg arg value key mf buf h hk hres,
      if_neg (by simp [hall])]
    simp only [hpv]
    rw [if_neg (by simp [hval])]

/-- Witness for C8 (amended): the success case on the concrete input
`"v->a"` in the fixture registry. -/
theorem c8_parse_order_witness :
    set_field_parse wit_reg ['v', '-', '>', 'a'] [] =
      .ok [{ set_field_init ofpact_put_REG_LOAD_default wit_mf_src with
             value := [10, 0, 0, 1] }] :=
  (c8_parse_order wit_reg ['v', '-', '>', 'a'] []).2.2.2.2.2.2
    ['v'] ['a'] wit_mf_src [10, 0, 0, 1] (by decide) (by decide) (by decide)
    (by decide) (by rfl) (by decide)

/-- Claim C8 counterexample: the claim asserts that parse surfaces failures
as recoverable typed results rather than terminating the process; on the
concrete input `"x"` (no delimiter) the source instead reaches `ovs_fatal`
— the terminal `fatal` outcome — so no recoverable failure is returned. -/
theorem c8_counterexample :
    set_field_parse wit_reg ['x'] [] = .fatal .missingDelim := by
  decide

/-- Claim C9: text round-trip.  For every allow-listed field `mf` and every
value `v` its registry accepts, formatting the action produces exactly
`"set_field:" ++ value-text ++ "->" ++ name`, and parsing the
`value-text ++ "->" ++ name` portion yields exactly the original action —
under the losslessness the spec attributes to the registry: the field's name
resolves back to the field and is non-empty, and the formatted value text
contains no `"->"` and reparses to the original value bytes. -/
theorem c9_text_roundtrip (reg : Registry) (mf : MfField) (v : List Nat)
    (buf : List OfpactRegLoad)
    (hallow : set_field_mf_allowed mf = true)
    (hvalid : reg.mf_is_value_valid mf v = true)
    (hfmt : findArrow (reg.mf_format mf v) = none)
    (hname : mf.name ≠ [])
    (hres : reg.mf_parse_oxm_name mf.name = some mf)
    (hlossless : reg.mf_parse_value mf (reg.mf_format mf v) = .ok v) :
    set_field_format reg
        { set_field_init ofpact_put_REG_LOAD_default mf with value := v } =
      "set_field:".data ++ reg.mf_format mf v ++ '-' :: '>' :: mf.name ∧
    set_field_parse reg (reg.mf_format mf v ++ '-' :: '>' :: mf.name) buf =
      .ok (buf ++
        [{ set_field_init ofpact_put_REG_LOAD_default mf with value := v }]) := by
  constructor
  · show (("set_field:".data ++ reg.mf_format mf v) ++ "->".data) ++ mf.name =
      ("set_field:".data ++ reg.mf_format mf v) ++ ('-' :: '>' :: mf.name)
    rw [List.append_assoc]
    rfl
  · rw [parse_resolved reg _ (reg.mf_format mf v) mf.name mf buf
        (findArrow_append_arrow _ mf.name hfmt) hname hres,
      if_neg (by simp [hallow])]
    simp only [hlossless]
    rw [if_neg (by simp [hvalid])]

/-- Witness for C9: the concrete allow-listed fixture field, whose value
`[10, 0, 0, 1]` formats as `"v"` and whose name is `"a"`; the formatted text
is `"set_field:v->a"` and parsing `"v->a"` returns the original action. -/
theorem c9_text_roundtrip_witness :
    set_field_format wit_reg
        { set_field_init ofpact_put_REG_LOAD_default wit_mf_src with
          value := [10, 0, 0, 1] } =
      "set_field:".data ++ ['v', '-', '>', 'a'] ∧
    set_field_parse wit_reg ['v', '-', '>', 'a'] [] =
      .ok [{ set_field_init ofpact_put_REG_LOAD_default wit_mf_src with
             value := [10, 0, 0, 1] }] := by
  have h := c9_text_roundtrip wit_reg wit_mf_src [10, 0, 0, 1] []
    (by decide) (by decide) (by decide) (by decide) (by decide) (by rfl)
  exact ⟨h.1, h.2⟩

/-- Claim C10: decode atomicity.  Whenever decode fails at one of its
structural checks — bad length, non-zero padding, mask bit set, or an
unknown/unrepresentable field header — the caller's instruction buffer comes
back unchanged: the decoded action is appended only after all of those
checks have passed. -/
theorem c10_decode_atomicity (reg : Registry) (oasf : Ofp12ActionSetField)
    (buf : List OfpactRegLoad) (e : DecodeSite)
    (h : (set_field_from_openflow_site reg oasf buf).1 = some e)
    (hstruct : e = .badLength ∨ e = .badPadding ∨ e = .maskedNotSupported ∨
      e = .unknownField) :
    (set_field_from_openflow_site reg oasf buf).2 = buf := by
  by_cases hL : oasf.len = ROUND_UP (sizeof_oasf + NXM_LENGTH oasf.oxm) 8
  · by_cases hp : padding_all_zero oasf = false
    · rw [decode_site_badPadding reg oasf buf hL hp]
    · have hp' : padding_all_zero oasf = true := by
        cases hpt : padding_all_zero oasf
        · exact absurd hpt hp
        · rfl
      by_cases hm : NXM_HASMASK oasf.oxm = true
      · rw [decode_site_masked reg oasf buf hL hp' hm]
      · have hm' : NXM_HASMASK oasf.oxm = false := by
          cases hmt : NXM_HASMASK oasf.oxm
          · rfl
          · exact absurd hmt hm
        cases hlook : reg.mf_from_nxm_header oasf.oxm with
        | none => rw [decode_site_unknown_none reg oasf buf hL hp' hm' hlook]
        | some mf =>
          by_cases hz : mf.oxm_header = 0
          · rw [decode_site_unknown_zero reg oasf buf mf hL hp' hm' hlook hz]
          · rw [decode_site_resolved reg oasf buf mf hL hp' hm' hlook hz] at h
            cases hcs : set_field_check_site reg (decoded_load oasf mf) none with
            | none => rw [hcs] at h; simp at h
            | some c =>
              rw [hcs] at h
              simp only [Option.map_some', Option.some.injEq] at h
              rcases hstruct with h' | h' | h' | h' <;> rw [h'] at h <;>
                exact absurd h (by simp)
  · rw [decode_site_badLength reg oasf buf hL]

/-- Witness for C10: a structurally failing record (bad length) decoded into
a non-empty buffer leaves the buffer exactly as it was. -/
theorem c10_decode_atomicity_witness :
    (set_field_from_openflow_site wit_reg { len := 12, oxm := 512, payload := [] }
        [{ set_field_init ofpact_put_REG_LOAD_default wit_mf_src with
           value := [10, 0, 0, 1] }]).2 =
      [{ set_field_init ofpact_put_REG_LOAD_default wit_mf_src with
         value := [10, 0, 0, 1] }] :=
  c10_decode_atomicity wit_reg { len := 12, oxm := 512, payload := [] }
    [{ set_field_init ofpact_put_REG_LOAD_default wit_mf_src with
       value := [10, 0, 0, 1] }] .badLength (by decide) (Or.inl rfl)
